import Mathlib

/-!
Verification of the elastic-simple-copier replication pipeline.

This file gives a shallow embedding, in Lean 4, of the core logic of
`src/elastic_copier.py` (the authoritative script; `src/elk-simple-copier.py`
is a near-duplicate predecessor):

* `CopyStatistics` with `add_success` / `add_failure` / `start` / `finish` /
  `summary` (lines 32-84 of `elastic_copier.py`);
* the destination-settings computation of `create_index_with_settings`
  (lines 143-206), including the three-mode field-limit policy;
* the scroll / bulk page loop of `reindex_data` (lines 208-280), with the
  external clusters modelled by response oracles (a `World`);
* the per-index driver `copy_index` (lines 282-304) and the multi-index
  loop of `main` (lines 420-425);
* `parse_index_mapping` (lines 306-318), with Python string `split` /
  `strip` / `in` modelled character-by-character.

Modelling conventions: Python exceptions become `Except` / explicit error
fields; `datetime.now()` values become `Nat` timestamps supplied as inputs;
JSON settings values are the strings Elasticsearch serves; the external HTTP
responses are oracle fields of a `World` record, so every run of the embedded
code is a pure function of the oracle.
-/

/-! ## Generic Python-dict association list

Python `dict` assignment `d[k] = v` overwrites the value in place when the
key exists (keeping the key's original position) and appends otherwise.
-/

/-- Python-dict insertion: update in place if the key is present, append
otherwise. -/
def dictInsert {α : Type} : List (String × α) → String → α → List (String × α)
  | [], k, v => [(k, v)]
  | (k', v') :: rest, k, v =>
    if k' = k then (k, v) :: rest else (k', v') :: dictInsert rest k v

/-- Python-dict lookup `d[k]` (first, hence unique, binding of the key). -/
def dictLookup {α : Type} : List (String × α) → String → Option α
  | [], _ => none
  | (k, v) :: rest, q => if k = q then some v else dictLookup rest q

/-! ## CopyStatistics (elastic_copier.py lines 32-84) -/

/-- State of the `CopyStatistics` tracker. `start_time` / `end_time` are
`none` until `start()` / `finish()` run (Python initialises them to `None`);
timestamps are modelled as `Nat`. -/
structure CopyStatistics where
  successful_copies : List (String × String × Nat)
  failed_copies : List (String × String × String)
  total_documents : Nat
  start_time : Option Nat
  end_time : Option Nat
deriving DecidableEq

/-- Fresh tracker, as built by `CopyStatistics.__init__`. -/
def emptyStats : CopyStatistics := ⟨[], [], 0, none, none⟩

/-- Method `add_success`: append the triple and add the count into
`total_documents`. -/
def CopyStatistics.add_success (st : CopyStatistics) (s t : String) (n : Nat) :
    CopyStatistics :=
  { st with successful_copies := st.successful_copies ++ [(s, t, n)],
            total_documents := st.total_documents + n }

/-- Method `add_failure`: append the triple; `total_documents` untouched. -/
def CopyStatistics.add_failure (st : CopyStatistics) (s t e : String) :
    CopyStatistics :=
  { st with failed_copies := st.failed_copies ++ [(s, t, e)] }

/-- Method `start`: record the current time. -/
def CopyStatistics.start (st : CopyStatistics) (now : Nat) : CopyStatistics :=
  { st with start_time := some now }

/-- Method `finish`: record the current time. -/
def CopyStatistics.finish (st : CopyStatistics) (now : Nat) : CopyStatistics :=
  { st with end_time := some now }

/-- Method `summary`, at the granularity of the `summary` list the Python
code builds before joining with newlines.  The very first statement is
`duration = self.end_time - self.start_time`, which raises `TypeError`
when either time is still `None`; that abort is modelled as `none`.
Number/timedelta formatting is abstracted by `toString`. -/
def CopyStatistics.summaryLines (st : CopyStatistics) : Option (List String) :=
  match st.start_time, st.end_time with
  | some a, some b =>
    let duration : Int := (b : Int) - (a : Int)
    let base : List String :=
      ["\nCopy Operation Summary:",
       "Duration: " ++ toString duration,
       "Total Documents Copied: " ++ toString st.total_documents,
       "Successful Copies: " ++ toString st.successful_copies.length,
       "Failed Copies: " ++ toString st.failed_copies.length]
    let base := if st.successful_copies.isEmpty then base else
      base ++ ["\nSuccessful Operations:"] ++
        st.successful_copies.map (fun x =>
          "  - " ++ x.1 ++ " → " ++ x.2.1 ++ " (" ++ toString x.2.2 ++ " documents)")
    let base := if st.failed_copies.isEmpty then base else
      base ++ ["\nFailed Operations:"] ++
        (st.failed_copies.map (fun x =>
          ["  - " ++ x.1 ++ " → " ++ x.2.1, "    Error: " ++ x.2.2])).flatten
    some base
  | _, _ => none

/-- Method `summary`: the joined report text (`"\n".join(summary)`), or
`none` when the Python code raises. -/
def CopyStatistics.summary (st : CopyStatistics) : Option String :=
  (st.summaryLines).map (String.intercalate "\n")

/-- One call on the statistics collector. -/
inductive StatsOp where
  | succ (s t : String) (n : Nat)
  | fail (s t e : String)
  | start (time : Nat)
  | finish (time : Nat)
deriving DecidableEq

/-- Apply one collector call to a state. -/
def applyOp (st : CopyStatistics) : StatsOp → CopyStatistics
  | .succ s t n => st.add_success s t n
  | .fail s t e => st.add_failure s t e
  | .start a => st.start a
  | .finish b => st.finish b

/-- Run a sequence of collector calls from the fresh state. -/
def applyOps (ops : List StatsOp) : CopyStatistics :=
  ops.foldl applyOp emptyStats

/-- Sum of the recorded per-success document counts. -/
def sumCounts (l : List (String × String × Nat)) : Nat :=
  (l.map (fun x => x.2.2)).sum

/-- Decidable equality for `Except`, needed to evaluate run outcomes on
concrete inputs. -/
instance {ε α : Type} [DecidableEq ε] [DecidableEq α] : DecidableEq (Except ε α) :=
  fun a b =>
  match a, b with
  | .error e, .error f => decidable_of_iff (e = f) (by simp)
  | .error _, .ok _ => isFalse (by simp)
  | .ok _, .error _ => isFalse (by simp)
  | .ok x, .ok y => decidable_of_iff (x = y) (by simp)

/-! ## SchemaTransfer: create_index_with_settings (elastic_copier.py lines 143-206) -/

/-- JSON value placed at the field-limit key of the PUT body: the `use
source` branch forwards the JSON string Elasticsearch served, while the
explicit-policy branch writes the configured integer. -/
inductive JVal where
  | str (s : String)
  | num (n : Int)
deriving DecidableEq

/-- Relevant slice of the source index's `settings` document.  Elasticsearch
serialises settings values as JSON strings, so each is an optional
`String` (absent key = `none`), matching the `.get(...)` chains at lines
167-174. -/
structure SourceSettings where
  number_of_shards : Option String
  number_of_replicas : Option String
  total_fields_limit : Option String
deriving DecidableEq

/-- Destination `settings` computed at lines 166-191: `fieldLimit = none`
means the `mapping.total_fields.limit` key is omitted from the PUT body. -/
structure DestSettings where
  number_of_shards : String
  number_of_replicas : String
  fieldLimit : Option JVal
deriving DecidableEq

/-- Destination-settings computation (lines 166-191).  `limit` is
`self.total_fields_limit` (`none` = Python `None`); `-1` is the use-source
sentinel.  Python's truthiness test `if source_total_fields:` on the JSON
string is `s ≠ ""`, and `elif self.total_fields_limit and
self.total_fields_limit > 0:` is `n ≠ 0 ∧ 0 < n`. -/
def create_settings (limit : Option Int) (src : SourceSettings) : DestSettings :=
  let base : DestSettings :=
    ⟨src.number_of_shards.getD "1", src.number_of_replicas.getD "1", none⟩
  if limit = some (-1) then
    match src.total_fields_limit with
    | some s => if s ≠ "" then { base with fieldLimit := some (JVal.str s) } else base
    | none => base
  else
    match limit with
    | some n => if n ≠ 0 ∧ 0 < n then { base with fieldLimit := some (JVal.num n) } else base
    | none => base

/-- Error out of `create_index_with_settings`: a transport-level
`RequestException` from the PUT; the `HTTPError` that `raise_for_status()`
raises, which carries the remote response (`e.response.text`); or the
JSON decode error that `response.json()` (line 203) raises when the
response body is not valid JSON — it carries parse diagnostics, not the
response as an `HTTPError` does, and the offending body text stands in
for those here. -/
inductive CreateError where
  | transport (msg : String)
  | httpError (status : Nat) (body : String)
  | jsonDecodeError (body : String)
deriving DecidableEq

/-- HTTP response of the destination cluster to the index-create PUT: the
status, the raw body text, and the result of parsing that text as JSON —
`json = none` models the decode error `response.json()` raises on a body
that is not valid JSON, `json = some j` its parsed document.  The
validity of `body` as JSON is environment data the oracle supplies; a
consistent world pairs a `some` parse only with a body that really is
JSON. -/
structure PutResp where
  status : Nat
  body : String
  json : Option String
deriving DecidableEq

/-- Responses the destination cluster gives to the two requests of
`create_index_with_settings`: the DELETE of the pre-existing index and the
PUT that creates the new one.  `Except.error` is a transport exception;
`Except.ok` carries the HTTP status (and, for the PUT, the body). -/
structure CreateWorld where
  deleteResp : Except String Nat
  putResp : Except String PutResp
deriving DecidableEq

/-- Method `create_index_with_settings` (lines 143-206), body construction
aside: issue the DELETE inside `try/except RequestException: pass` (lines
160-164), compute the settings, PUT the new index and `raise_for_status()`
(lines 198-201) — `requests` raises `HTTPError` exactly for statuses
400-599 — then `return response.json()` (line 203), which raises a JSON
decode error when the response body is not valid JSON. -/
def create_index_with_settings (w : CreateWorld) (limit : Option Int)
    (src : SourceSettings) : Except CreateError (DestSettings × String) :=
  let _deleted : Option Nat :=
    match w.deleteResp with
    | .error _ => none
    | .ok s => some s
  match w.putResp with
  | .error m => .error (.transport m)
  | .ok r =>
    if 400 ≤ r.status ∧ r.status < 600 then .error (.httpError r.status r.body)
    else
      match r.json with
      | none => .error (.jsonDecodeError r.body)
      | some j => .ok (create_settings limit src, j)

/-! ## ScrollCursor and BulkLoader: reindex_data (elastic_copier.py lines 208-280) -/

/-- One source document as it appears in a scroll page's `hits` array:
its stable `_id` and its `_source` body (an opaque JSON text here). -/
structure Doc where
  id : String
  source : String
deriving DecidableEq

/-- Response of the destination cluster to one `_bulk` POST.  `resp status
failed` is an HTTP response: `failed` is the set of document ids the
server rejected, so the body's `errors` flag is `failed ≠ []`.  `exn` is a
transport `RequestException`, which the page loop does not catch. -/
inductive BulkResp where
  | resp (status : Nat) (failed : List String)
  | exn (msg : String)

/-- Predicate: the bulk POST returned an HTTP response (no transport
exception). -/
def BulkResp.isResp : BulkResp → Prop
  | .resp _ _ => True
  | .exn _ => False

/-- Environment of one `reindex_data` run.  `pages` is the page sequence
the source cluster serves (index 0 from the opening search, index `i + 1`
from the `i`-th `_search/scroll` POST; past the end of the list the server
serves empty pages).  `openErr` / `fetchErr i` / `closeErr` are the
exceptions raised at the opening search, the `i`-th scroll fetch
(`raise_for_status` or a transport error) and the final DELETE
(transport error only: the code never checks the DELETE's status). -/
structure World where
  openErr : Option String
  pages : List (List Doc)
  fetchErr : Nat → Option String
  bulkResp : Nat → BulkResp
  closeErr : Option String

/-- Observable result of a `reindex_data` run: the returned total (or the
propagated exception's message), the destination index contents (id →
body), how many times the scroll-release DELETE was issued, and how many
`_bulk` POSTs were issued. -/
structure RunResult where
  outcome : Except String Nat
  dest : List (String × String)
  closeCalls : Nat
  bulkCalls : Nat
deriving DecidableEq

/-- Destination-cluster semantics of one `_bulk` POST (environment model,
not code of the repository): on a 200 response the server has indexed
every document of the page whose id it did not reject, keyed by the
original `_id`; on any other status nothing was committed. -/
def bulkCommit (dest : List (String × String)) (hits : List Doc)
    (status : Nat) (failed : List String) : List (String × String) :=
  if status = 200 then
    hits.foldl (fun d h => if failed.contains h.id then d else dictInsert d h.id h.source) dest
  else dest

/-- Scroll cleanup after the `while` loop (lines 269-276): the DELETE is
issued; a transport exception from it is caught by the outer `except`
clause and re-raised, otherwise the accumulated total is returned. -/
def closeStep (w : World) (total : Nat) (dest : List (String × String))
    (bulkIdx : Nat) : RunResult :=
  match w.closeErr with
  | some e => ⟨.error e, dest, 1, bulkIdx⟩
  | none => ⟨.ok total, dest, 1, bulkIdx⟩

/-- The `while hits:` page loop (lines 235-267).  Per iteration: POST the
page to `_bulk`; a transport exception aborts (no scroll release); a
non-200 status is only logged (line 246-247), a 200 body with
`errors: true` is only logged (lines 249-252); then `total_docs +=
len(hits)` and the next page is fetched with `raise_for_status()`, whose
exception likewise aborts without a release. -/
def scrollLoop (w : World) : List (List Doc) → Nat → Nat → Nat →
    List (String × String) → RunResult
  | [], _, b, total, dest => closeStep w total dest b
  | hits :: rest, f, b, total, dest =>
    if hits.isEmpty then closeStep w total dest b
    else
      match w.bulkResp b with
      | .exn e => ⟨.error e, dest, 0, b + 1⟩
      | .resp status failed =>
        let dest' := bulkCommit dest hits status failed
        let total' := total + hits.length
        match w.fetchErr f with
        | some e => ⟨.error e, dest', 0, b + 1⟩
        | none => scrollLoop w rest (f + 1) (b + 1) total' dest'

/-- Method `reindex_data` (lines 208-280): open the scroll (a
`raise_for_status` failure or a missing `_scroll_id` key aborts before any
page), then run the page loop on the served pages. -/
def reindex_data (w : World) : RunResult :=
  match w.openErr with
  | some e => ⟨.error e, [], 0, 0⟩
  | none => scrollLoop w w.pages 0 0 0 []

/-- Pages the loop actually processes: the longest prefix of nonempty
pages (the first empty page terminates the `while`). -/
def served : List (List Doc) → List (List Doc)
  | [] => []
  | p :: ps => if p.isEmpty then [] else p :: served ps

/-- Number of documents across the served pages — the value of
`total_docs` when the loop terminates normally. -/
def totalServed : List (List Doc) → Nat
  | [] => 0
  | p :: ps => if p.isEmpty then 0 else p.length + totalServed ps

/-- Number of served pages — one `_bulk` POST each. -/
def servedCount : List (List Doc) → Nat
  | [] => 0
  | p :: ps => if p.isEmpty then 0 else 1 + servedCount ps

/-- Documents of the served pages, in order. -/
def docsOf : List (List Doc) → List Doc
  | [] => []
  | p :: ps => if p.isEmpty then [] else p ++ docsOf ps

/-! ## ReplicationOrchestrator: copy_index and the main loop
(elastic_copier.py lines 282-304 and 420-425) -/

/-- Net effect of one `copy_index` call (lines 282-304) on the statistics.
The whole replication of one pair — `get_source_index_info`,
`create_index_with_settings`, `reindex_data` — is abstracted by a
`behavior` oracle giving, per pair, either the copied-document total or
the message of the exception it raises (already including the remote
response body, which line 301 appends when present).  On success
`add_success` runs; on any exception `add_failure` runs and the exception
is re-raised — which the `main` loop (lines 420-425) catches and ignores,
so the driver-level effect is exactly the recorded outcome. -/
def copy_index (behavior : String → String → Except String Nat)
    (st : CopyStatistics) (s t : String) : CopyStatistics :=
  match behavior s t with
  | .ok n => st.add_success s t n
  | .error e => st.add_failure s t e

/-- The `for source_index, target_index in index_map.items():` loop of
`main` (lines 420-425): every pair is attempted in order; a failing pair's
exception is logged and the loop continues. -/
def runAll (behavior : String → String → Except String Nat)
    (pairs : List (String × String)) (st : CopyStatistics) : CopyStatistics :=
  pairs.foldl (fun acc p => copy_index behavior acc p.1 p.2) st

/-- Success records the driver produces from a pair list. -/
def oksOf (behavior : String → String → Except String Nat)
    (pairs : List (String × String)) : List (String × String × Nat) :=
  pairs.filterMap (fun p =>
    match behavior p.1 p.2 with
    | .ok n => some (p.1, p.2, n)
    | .error _ => none)

/-- Failure records the driver produces from a pair list. -/
def errsOf (behavior : String → String → Except String Nat)
    (pairs : List (String × String)) : List (String × String × String) :=
  pairs.filterMap (fun p =>
    match behavior p.1 p.2 with
    | .ok _ => none
    | .error e => some (p.1, p.2, e))

/-! ## parse_index_mapping (elastic_copier.py lines 306-318)

Python string primitives are modelled character-by-character on `List
Char`: `str.split(sep)` for a one-character separator, `str.strip()` for
ASCII whitespace, and `':' in s`.
-/

/-- ASCII whitespace, as `str.strip()` removes. -/
def isSpace (c : Char) : Bool :=
  c == ' ' || c == '\t' || c == '\n' || c == '\r' || c == '\x0b' || c == '\x0c'

/-- Python `str.strip()`. -/
def pyStrip (l : List Char) : List Char :=
  ((l.dropWhile isSpace).reverse.dropWhile isSpace).reverse

/-- Python `str.split(sep)` for a one-character separator: `"".split(',')
= ['']`, and empty segments are kept. -/
def pySplit (sep : Char) : List Char → List (List Char)
  | [] => [[]]
  | c :: rest =>
    if c == sep then [] :: pySplit sep rest
    else
      match pySplit sep rest with
      | [] => [[c]]
      | g :: gs => (c :: g) :: gs

/-- One iteration of the `for index_pair in indices_str.split(','):` body
(lines 312-317), producing the (source, target) pair inserted into the
dict, or `none` for the `ValueError` that `source, target =
index_pair.strip().split(':')` raises when the entry holds more than one
colon. -/
def entryPair (p : List Char) : Option (String × String) :=
  if p.contains ':' then
    match pySplit ':' (pyStrip p) with
    | [a, b] => some (String.mk (pyStrip a), String.mk (pyStrip b))
    | _ => none
  else some (String.mk (pyStrip p), String.mk (pyStrip p))

/-- Fold of the parsed entries into the `index_map` dict. -/
def parseEntries : List (String × String) → List (List Char) →
    Option (List (String × String))
  | m, [] => some m
  | m, p :: ps =>
    match entryPair p with
    | none => none
    | some (k, v) => parseEntries (dictInsert m k v) ps

/-- Function `parse_index_mapping` (lines 306-318): empty input gives the
empty dict; otherwise each comma-separated entry is parsed and inserted.
`none` models the `ValueError` abort on a malformed entry. -/
def parse_index_mapping (s : String) : Option (List (String × String)) :=
  if s.data.isEmpty then some []
  else parseEntries [] (pySplit ',' s.data)

/-- Pair each well-formed entry of the indices string contributes, in
order (the specification-side view the parse result is compared with). -/
def pairsOf (s : String) : List (String × String) :=
  if s.data.isEmpty then [] else (pySplit ',' s.data).filterMap entryPair

/-- Target of the last entry with the given source name, if any. -/
def lastAssign : List (String × String) → String → Option String
  | [], _ => none
  | (k, v) :: rest, q =>
    match lastAssign rest q with
    | some w => some w
    | none => if k = q then some v else none

/-! ## Concrete fixtures for counterexamples and witnesses -/

/-- Two one-document pages; every `_bulk` POST answers 500; open, the
scroll fetches and the release all succeed. -/
def cexBulk500World : World :=
  ⟨none, [[⟨"d1", "body1"⟩], [⟨"d2", "body2"⟩]],
   fun _ => none, fun _ => BulkResp.resp 500 [], none⟩

/-- One one-document page; the `_bulk` POST answers 503; everything else
succeeds. -/
def cexBulk503World : World :=
  ⟨none, [[⟨"d1", "body1"⟩]],
   fun _ => none, fun _ => BulkResp.resp 503 [], none⟩

/-- One one-document page; the bulk POST succeeds cleanly but the first
scroll fetch raises. -/
def cexFetchFailWorld : World :=
  ⟨none, [[⟨"d1", "body1"⟩]],
   fun _ => some "ConnectionError: source reset", fun _ => BulkResp.resp 200 [], none⟩

/-- Two pages of two and one documents, clean responses everywhere. -/
def cleanWorld : World :=
  ⟨none, [[⟨"a", "bodyA"⟩, ⟨"b", "bodyB"⟩], [⟨"c", "bodyC"⟩]],
   fun _ => none, fun _ => BulkResp.resp 200 [], none⟩

/-- Two pages; every bulk POST answers 200 but rejects document `b`
(`errors: true` on page 0). -/
def partialErrWorld : World :=
  ⟨none, [[⟨"a", "bodyA"⟩, ⟨"b", "bodyB"⟩], [⟨"c", "bodyC"⟩]],
   fun _ => none, fun _ => BulkResp.resp 200 ["b"], none⟩

/-- Destination responses with a successful DELETE and a 300 Multiple
Choices answer to the index-create PUT whose body is the valid JSON
document `[]` (300 is not among the 301/302/303/307/308 redirects
`requests` follows, so the response is returned to the caller as-is). -/
def cex300World : CreateWorld := ⟨.ok 200, .ok ⟨300, "[]", some "[]"⟩⟩

/-- Statistics state `main` reaches (lines 414-429): `stats.start()`, the
copy loop over every pair, `stats.finish()`, then `stats.summary()`. -/
def mainRun (behavior : String → String → Except String Nat)
    (pairs : List (String × String)) (t0 t1 : Nat) : CopyStatistics :=
  (runAll behavior pairs (emptyStats.start t0)).finish t1

/-! ## Helper lemmas -/

/-- Looking a key up after a Python-dict insertion. -/
theorem dictLookup_dictInsert {α : Type} (m : List (String × α)) (k : String)
    (v : α) (q : String) :
    dictLookup (dictInsert m k v) q = if k = q then some v else dictLookup m q := by
  induction m with
  | nil => simp [dictInsert, dictLookup]
  | cons kv rest ih =>
    obtain ⟨k', v'⟩ := kv
    by_cases hk : k' = k
    · subst hk
      by_cases hq : k' = q <;> simp [dictInsert, dictLookup, hq]
    · by_cases hq : k' = q
      · subst hq
        have : ¬ k = k' := fun h => hk h.symm
        simp [dictInsert, dictLookup, hk, this]
      · simp [dictInsert, dictLookup, hk, hq, ih]

/-- Keys after a Python-dict insertion: unchanged when the key is present,
appended otherwise. -/
theorem keys_dictInsert {α : Type} (m : List (String × α)) (k : String) (v : α) :
    (dictInsert m k v).map Prod.fst =
      if k ∈ m.map Prod.fst then m.map Prod.fst else m.map Prod.fst ++ [k] := by
  induction m with
  | nil => simp [dictInsert]
  | cons kv rest ih =>
    obtain ⟨k', v'⟩ := kv
    by_cases hk : k' = k
    · subst hk
      simp [dictInsert]
    · have : ¬ k = k' := fun h => hk h.symm
      by_cases hmem : k ∈ rest.map Prod.fst <;>
        simp [dictInsert, hk, this, hmem, ih]

/-- Python-dict insertion preserves distinctness of the keys. -/
theorem nodup_keys_dictInsert {α : Type} (m : List (String × α)) (k : String)
    (v : α) (h : (m.map Prod.fst).Nodup) :
    ((dictInsert m k v).map Prod.fst).Nodup := by
  rw [keys_dictInsert]
  by_cases hmem : k ∈ m.map Prod.fst
  · simpa [hmem] using h
  · simp [hmem, List.nodup_append, h]

/-- Inserting a fresh key appends the binding. -/
theorem dictInsert_fresh {α : Type} (m : List (String × α)) (k : String) (v : α)
    (h : ∀ q ∈ m, q.1 ≠ k) : dictInsert m k v = m ++ [(k, v)] := by
  induction m with
  | nil => simp [dictInsert]
  | cons kv rest ih =>
    have hk : kv.1 ≠ k := h kv (by simp)
    simp [dictInsert, hk, ih (fun q hq => h q (by simp [hq]))]

/-- The page loop under HTTP-level bulk responses (any statuses, any
per-document errors) and clean open/fetch/close requests: it visits every
served page, counts every document, and ends normally. -/
theorem scrollLoop_ok (w : World) (hf : ∀ i, w.fetchErr i = none)
    (hb : ∀ i, (w.bulkResp i).isResp) (hc : w.closeErr = none) :
    ∀ (pages : List (List Doc)) (f b total : Nat) (dest : List (String × String)),
      (scrollLoop w pages f b total dest).outcome = Except.ok (total + totalServed pages)
      ∧ (scrollLoop w pages f b total dest).bulkCalls = b + servedCount pages
      ∧ (scrollLoop w pages f b total dest).closeCalls = 1 := by
  intro pages
  induction pages with
  | nil =>
    intro f b total dest
    simp [scrollLoop, closeStep, hc, totalServed, servedCount]
  | cons p ps ih =>
    intro f b total dest
    cases hp : p.isEmpty with
    | true => simp [scrollLoop, hp, closeStep, hc, totalServed, servedCount]
    | false =>
      cases hbb : w.bulkResp b with
      | exn e => exact absurd (hb b) (by rw [hbb]; simp [BulkResp.isResp])
      | resp status failed =>
        obtain ⟨h1, h2, h3⟩ :=
          ih (f + 1) (b + 1) (total + p.length) (bulkCommit dest p status failed)
        simp only [scrollLoop, hp, hbb, hf f, Bool.false_eq_true, if_false,
          totalServed, servedCount]
        refine ⟨?_, ?_, h3⟩
        · rw [h1]; ring_nf
        · rw [h2]; ring_nf

/-- The scroll-release DELETE is never issued more than once per run. -/
theorem scrollLoop_close_le_one (w : World) :
    ∀ (pages : List (List Doc)) (f b total : Nat) (dest : List (String × String)),
      (scrollLoop w pages f b total dest).closeCalls ≤ 1 := by
  intro pages
  induction pages with
  | nil =>
    intro f b total dest
    cases hcc : w.closeErr <;> simp [scrollLoop, closeStep, hcc]
  | cons p ps ih =>
    intro f b total dest
    cases hp : p.isEmpty with
    | true => cases hcc : w.closeErr <;> simp [scrollLoop, hp, closeStep, hcc]
    | false =>
      cases hbb : w.bulkResp b with
      | exn e => simp [scrollLoop, hp, hbb]
      | resp status failed =>
        cases hff : w.fetchErr f with
        | some e => simp [scrollLoop, hp, hbb, hff]
        | none =>
          have h := ih (f + 1) (b + 1) (total + p.length) (bulkCommit dest p status failed)
          simpa [scrollLoop, hp, hbb, hff] using h

/-- Folding fresh, mutually distinct documents into the destination map
appends them in order. -/
theorem foldl_dictInsert_fresh :
    ∀ (hits : List Doc) (dest : List (String × String)),
      (hits.map Doc.id).Nodup →
      (∀ d ∈ hits, ∀ q ∈ dest, q.1 ≠ d.id) →
      hits.foldl (fun d h => dictInsert d h.id h.source) dest
        = dest ++ hits.map (fun d => (d.id, d.source)) := by
  intro hits
  induction hits with
  | nil => intro dest _ _; simp
  | cons h t ih =>
    intro dest hnd hfr
    have hfresh : dictInsert dest h.id h.source = dest ++ [(h.id, h.source)] :=
      dictInsert_fresh dest h.id h.source (fun q hq => hfr h (by simp) q hq)
    have hnd' : (t.map Doc.id).Nodup := by
      simpa using hnd.of_cons
    have hhid : h.id ∉ t.map Doc.id := by
      have := hnd
      simp only [List.map_cons, List.nodup_cons] at this
      exact this.1
    have hfr' : ∀ d ∈ t, ∀ q ∈ dest ++ [(h.id, h.source)], q.1 ≠ d.id := by
      intro d hd q hq
      rcases List.mem_append.mp hq with hq | hq
      · exact hfr d (by simp [hd]) q hq
      · have : q = (h.id, h.source) := by simpa using hq
        subst this
        intro hcon
        have hcon' : h.id = d.id := hcon
        exact hhid (hcon' ▸ List.mem_map_of_mem Doc.id hd)
    calc (h :: t).foldl (fun d x => dictInsert d x.id x.source) dest
        = t.foldl (fun d x => dictInsert d x.id x.source) (dictInsert dest h.id h.source) := by
          simp
      _ = (dest ++ [(h.id, h.source)]) ++ t.map (fun d => (d.id, d.source)) := by
          rw [hfresh, ih _ hnd' hfr']
      _ = dest ++ (h :: t).map (fun d => (d.id, d.source)) := by simp

/-- A fully clean 200 bulk response commits the whole page in order. -/
theorem bulkCommit_clean (dest : List (String × String)) (hits : List Doc)
    (hnd : (hits.map Doc.id).Nodup)
    (hfr : ∀ d ∈ hits, ∀ q ∈ dest, q.1 ≠ d.id) :
    bulkCommit dest hits 200 [] = dest ++ hits.map (fun d => (d.id, d.source)) := by
  have := foldl_dictInsert_fresh hits dest hnd hfr
  simpa [bulkCommit] using this

/-- The served documents are exactly `totalServed` many. -/
theorem docsOf_length (pages : List (List Doc)) :
    (docsOf pages).length = totalServed pages := by
  induction pages with
  | nil => simp [docsOf, totalServed]
  | cons p ps ih =>
    cases hp : p.isEmpty <;> simp [docsOf, totalServed, hp, ih]

/-- The page loop under clean responses everywhere (status 200, no
per-document errors, no exceptions) with distinct document ids: it
terminates normally with every served document, and only those, present
at the destination under its original id. -/
theorem scrollLoop_clean (w : World) (hf : ∀ i, w.fetchErr i = none)
    (hb : ∀ i, w.bulkResp i = BulkResp.resp 200 []) (hc : w.closeErr = none) :
    ∀ (pages : List (List Doc)) (f b total : Nat) (dest : List (String × String)),
      ((docsOf pages).map Doc.id).Nodup →
      (∀ d ∈ docsOf pages, ∀ q ∈ dest, q.1 ≠ d.id) →
      scrollLoop w pages f b total dest =
        ⟨Except.ok (total + totalServed pages),
         dest ++ (docsOf pages).map (fun d => (d.id, d.source)),
         1, b + servedCount pages⟩ := by
  intro pages
  induction pages with
  | nil =>
    intro f b total dest _ _
    simp [scrollLoop, closeStep, hc, totalServed, servedCount, docsOf]
  | cons p ps ih =>
    intro f b total dest hnd hfr
    cases hp : p.isEmpty with
    | true => simp [scrollLoop, hp, closeStep, hc, totalServed, servedCount, docsOf]
    | false =>
      rw [docsOf] at hnd hfr
      simp only [hp, Bool.false_eq_true, if_false] at hnd hfr
      have hndp : (p.map Doc.id).Nodup := by
        rw [List.map_append, List.nodup_append] at hnd
        exact hnd.1
      have hndps : ((docsOf ps).map Doc.id).Nodup := by
        rw [List.map_append, List.nodup_append] at hnd
        exact hnd.2.1
      have hdisj : (p.map Doc.id).Disjoint ((docsOf ps).map Doc.id) := by
        rw [List.map_append, List.nodup_append] at hnd
        exact hnd.2.2
      have hfrp : ∀ d ∈ p, ∀ q ∈ dest, q.1 ≠ d.id := by
        intro d hd
        exact hfr d (List.mem_append.mpr (Or.inl hd))
      have hcommit :
          bulkCommit dest p 200 [] = dest ++ p.map (fun d => (d.id, d.source)) :=
        bulkCommit_clean dest p hndp hfrp
      have hfr' : ∀ d ∈ docsOf ps, ∀ q ∈ dest ++ p.map (fun d => (d.id, d.source)),
          q.1 ≠ d.id := by
        intro d hd q hq
        rcases List.mem_append.mp hq with hq | hq
        · exact hfr d (List.mem_append.mpr (Or.inr hd)) q hq
        · rcases List.mem_map.mp hq with ⟨d', hd', rfl⟩
          intro hcon
          have hcon' : d'.id = d.id := hcon
          exact hdisj (a := d'.id) (List.mem_map_of_mem Doc.id hd')
            (hcon' ▸ List.mem_map_of_mem Doc.id hd)
      have hrec := ih (f + 1) (b + 1) (total + p.length)
        (dest ++ p.map (fun d => (d.id, d.source))) hndps hfr'
      simp only [scrollLoop, hp, Bool.false_eq_true, if_false, hb b, hf f]
      rw [hcommit, hrec]
      simp [totalServed, servedCount, docsOf, hp]
      constructor
      · omega
      · omega

/-- Effect of the multi-index loop on the statistics: every pair
contributes exactly its record, in order, and the timestamps are
untouched. -/
theorem runAll_spec (behavior : String → String → Except String Nat) :
    ∀ (pairs : List (String × String)) (st : CopyStatistics),
      (runAll behavior pairs st).successful_copies
          = st.successful_copies ++ oksOf behavior pairs
      ∧ (runAll behavior pairs st).failed_copies
          = st.failed_copies ++ errsOf behavior pairs
      ∧ (runAll behavior pairs st).start_time = st.start_time
      ∧ (runAll behavior pairs st).end_time = st.end_time := by
  intro pairs
  induction pairs with
  | nil => intro st; simp [runAll, oksOf, errsOf]
  | cons p ps ih =>
    intro st
    have step : runAll behavior (p :: ps) st
        = runAll behavior ps (copy_index behavior st p.1 p.2) := by
      simp [runAll]
    obtain ⟨h1, h2, h3, h4⟩ := ih (copy_index behavior st p.1 p.2)
    rw [step]
    cases hb : behavior p.1 p.2 with
    | ok n =>
      simp only [copy_index, hb, CopyStatistics.add_success] at h1 h2 h3 h4
      refine ⟨?_, ?_, ?_, ?_⟩ <;>
        simp [copy_index, hb, CopyStatistics.add_success, h1, h2, h3, h4,
          oksOf, errsOf, List.filterMap_cons]
    | error e =>
      simp only [copy_index, hb, CopyStatistics.add_failure] at h1 h2 h3 h4
      refine ⟨?_, ?_, ?_, ?_⟩ <;>
        simp [copy_index, hb, CopyStatistics.add_failure, h1, h2, h3, h4,
          oksOf, errsOf, List.filterMap_cons]

/-- Each pair lands in exactly one of the two outcome lists. -/
theorem oksOf_errsOf_length (behavior : String → String → Except String Nat) :
    ∀ pairs : List (String × String),
      (oksOf behavior pairs).length + (errsOf behavior pairs).length
        = pairs.length := by
  intro pairs
  induction pairs with
  | nil => simp [oksOf, errsOf]
  | cons p ps ih =>
    have h := ih
    simp only [oksOf, errsOf] at h ⊢
    cases hb : behavior p.1 p.2 <;>
      simp [List.filterMap_cons, hb] <;> omega

/-- Once some `start()` call happened, `start_time` is set. -/
theorem foldl_start_isSome :
    ∀ (ops : List StatsOp) (st : CopyStatistics),
      ((∃ a, StatsOp.start a ∈ ops) ∨ st.start_time.isSome = true) →
      (List.foldl applyOp st ops).start_time.isSome = true := by
  intro ops
  induction ops with
  | nil =>
    intro st h
    rcases h with ⟨a, ha⟩ | h
    · exact absurd ha (List.not_mem_nil _)
    · simpa using h
  | cons op ops ih =>
    intro st h
    rw [List.foldl_cons]
    apply ih
    rcases h with ⟨a, ha⟩ | h
    · rcases List.mem_cons.mp ha with rfl | ha
      · right; simp [applyOp, CopyStatistics.start]
      · left; exact ⟨a, ha⟩
    · right
      cases op <;>
        simp [applyOp, CopyStatistics.start, CopyStatistics.finish,
          CopyStatistics.add_success, CopyStatistics.add_failure, h]

/-- Once some `finish()` call happened, `end_time` is set. -/
theorem foldl_finish_isSome :
    ∀ (ops : List StatsOp) (st : CopyStatistics),
      ((∃ b, StatsOp.finish b ∈ ops) ∨ st.end_time.isSome = true) →
      (List.foldl applyOp st ops).end_time.isSome = true := by
  intro ops
  induction ops with
  | nil =>
    intro st h
    rcases h with ⟨b, hb⟩ | h
    · exact absurd hb (List.not_mem_nil _)
    · simpa using h
  | cons op ops ih =>
    intro st h
    rw [List.foldl_cons]
    apply ih
    rcases h with ⟨b, hb⟩ | h
    · rcases List.mem_cons.mp hb with rfl | hb
      · right; simp [applyOp, CopyStatistics.finish]
      · left; exact ⟨b, hb⟩
    · right
      cases op <;>
        simp [applyOp, CopyStatistics.start, CopyStatistics.finish,
          CopyStatistics.add_success, CopyStatistics.add_failure, h]

/-- The running total stays the sum of the recorded success counts. -/
theorem foldl_total_documents :
    ∀ (ops : List StatsOp) (st : CopyStatistics),
      st.total_documents = sumCounts st.successful_copies →
      (List.foldl applyOp st ops).total_documents
        = sumCounts (List.foldl applyOp st ops).successful_copies := by
  intro ops
  induction ops with
  | nil => intro st h; simpa using h
  | cons op ops ih =>
    intro st h
    rw [List.foldl_cons]
    apply ih
    cases op <;>
      simp [applyOp, CopyStatistics.add_success, CopyStatistics.add_failure,
        CopyStatistics.start, CopyStatistics.finish, sumCounts, h]

/-- The scroll-release DELETE is issued exactly once whenever the page
loop finishes without an exception, regardless of how the DELETE itself
fares. -/
theorem scrollLoop_close_eq_one (w : World) (hf : ∀ i, w.fetchErr i = none)
    (hb : ∀ i, (w.bulkResp i).isResp) :
    ∀ (pages : List (List Doc)) (f b total : Nat) (dest : List (String × String)),
      (scrollLoop w pages f b total dest).closeCalls = 1 := by
  intro pages
  induction pages with
  | nil =>
    intro f b total dest
    cases hcc : w.closeErr <;> simp [scrollLoop, closeStep, hcc]
  | cons p ps ih =>
    intro f b total dest
    cases hp : p.isEmpty with
    | true => cases hcc : w.closeErr <;> simp [scrollLoop, hp, closeStep, hcc]
    | false =>
      cases hbb : w.bulkResp b with
      | exn e => exact absurd (hb b) (by rw [hbb]; simp [BulkResp.isResp])
      | resp status failed =>
        have h := ih (f + 1) (b + 1) (total + p.length) (bulkCommit dest p status failed)
        simpa [scrollLoop, hp, hbb, hf f] using h

/-! ## Claim theorems -/

/-- Claim C1, counterexample.  Both bulk POSTs of a two-page run answer
500 (non-2xx), yet `reindex_data` neither aborts nor records a failure:
the page loop visits both pages (two bulk calls), the scroll is released,
and the method returns normally with total 2 — so `copy_index` would
record a Success.  The claim that a non-2xx bulk response aborts the
index's replication is false of the code, which only logs it (lines
246-247 of elastic_copier.py). -/
theorem bulk_non200_not_aborted_cex :
    (reindex_data cexBulk500World).outcome = Except.ok 2
    ∧ (reindex_data cexBulk500World).bulkCalls = 2
    ∧ (reindex_data cexBulk500World).closeCalls = 1 := by decide

/-- Claim C1 as amended: a non-200 bulk response is only logged; the page
loop continues past it, its documents are still counted, and — as long as
no request raises an exception — the run completes normally over every
served page, whatever the bulk statuses were. -/
theorem bulk_non200_loop_continues (w : World) (ho : w.openErr = none)
    (hf : ∀ i, w.fetchErr i = none) (hb : ∀ i, (w.bulkResp i).isResp)
    (hc : w.closeErr = none) :
    (reindex_data w).outcome = Except.ok (totalServed w.pages)
    ∧ (reindex_data w).bulkCalls = servedCount w.pages := by
  obtain ⟨h1, h2, _⟩ := scrollLoop_ok w hf hb hc w.pages 0 0 0 []
  constructor
  · simp only [reindex_data, ho]
    simpa using h1
  · simp only [reindex_data, ho]
    simpa using h2

/-- Witness for the amended C1 theorem at the concrete 500-answering
world. -/
theorem bulk_non200_loop_continues_witness :
    (reindex_data cexBulk500World).outcome = Except.ok (totalServed cexBulk500World.pages)
    ∧ (reindex_data cexBulk500World).bulkCalls = servedCount cexBulk500World.pages :=
  bulk_non200_loop_continues cexBulk500World rfl (fun _ => rfl)
    (fun _ => trivial) rfl

/-- Claim C2, counterexample.  The scroll opens successfully (a session
exists), the first scroll fetch raises, and the exception propagates out
of `reindex_data` with zero DELETE calls: the abort path leaks the
session, contradicting "the close request is issued exactly once ... on
every abort path". -/
theorem close_skipped_on_abort_cex :
    cexFetchFailWorld.openErr = none
    ∧ (reindex_data cexFetchFailWorld).outcome
        = Except.error "ConnectionError: source reset"
    ∧ (reindex_data cexFetchFailWorld).closeCalls = 0 := by decide

/-- Claim C2 as amended: the close request is issued at most once in any
run, and exactly once on the success path — when open, every scroll fetch
and every bulk POST return without raising (whether the DELETE itself
succeeds does not matter).  On abort paths no close is issued and cleanup
is left to the scroll lease's expiry. -/
theorem close_once_on_success (w : World) :
    (reindex_data w).closeCalls ≤ 1
    ∧ (w.openErr = none → (∀ i, w.fetchErr i = none) →
        (∀ i, (w.bulkResp i).isResp) → (reindex_data w).closeCalls = 1) := by
  constructor
  · cases ho : w.openErr with
    | some e => simp [reindex_data, ho]
    | none =>
      simp only [reindex_data, ho]
      exact scrollLoop_close_le_one w w.pages 0 0 0 []
  · intro ho hf hb
    simp only [reindex_data, ho]
    exact scrollLoop_close_eq_one w hf hb w.pages 0 0 0 []

/-- Witness for the amended C2 theorem at the clean two-page world. -/
theorem close_once_on_success_witness :
    (reindex_data cleanWorld).closeCalls ≤ 1
    ∧ (reindex_data cleanWorld).closeCalls = 1 :=
  ⟨(close_once_on_success cleanWorld).1,
   (close_once_on_success cleanWorld).2 rfl (fun _ => rfl) (fun _ => trivial)⟩

/-- Claim C3, counterexample.  One page of one document whose bulk POST
answers 503: nothing is committed at the destination, yet `reindex_data`
returns normally with `total_docs = 1`, so the replication is recorded as
a Success whose `documentCount` (1) differs from the destination document
count (0).  "Destination count equals documentCount for every Success" is
false of the code. -/
theorem success_dest_mismatch_cex :
    (reindex_data cexBulk503World).outcome = Except.ok 1
    ∧ (reindex_data cexBulk503World).dest = [] := by decide

/-- Claim C3 as amended: the `documentCount` of a Success always equals
the number of documents returned across all scroll pages; the destination
document count additionally equals it when every page's bulk request
returns 200 with no per-document errors and the document ids are
pairwise distinct — then the destination holds exactly the served
documents under their original ids (no duplication, no loss). -/
theorem success_total_counts_served_docs (w : World) (ho : w.openErr = none)
    (hf : ∀ i, w.fetchErr i = none) (hb : ∀ i, w.bulkResp i = BulkResp.resp 200 [])
    (hc : w.closeErr = none) (hnd : ((docsOf w.pages).map Doc.id).Nodup) :
    (reindex_data w).outcome = Except.ok (totalServed w.pages)
    ∧ (reindex_data w).dest = (docsOf w.pages).map (fun d => (d.id, d.source))
    ∧ (reindex_data w).dest.length = totalServed w.pages := by
  have h := scrollLoop_clean w hf hb hc w.pages 0 0 0 [] hnd (by simp)
  simp only [reindex_data, ho]
  rw [h]
  simp [docsOf_length]

/-- Witness for the amended C3 theorem at the clean two-page world. -/
theorem success_total_counts_served_docs_witness :
    (reindex_data cleanWorld).outcome = Except.ok (totalServed cleanWorld.pages)
    ∧ (reindex_data cleanWorld).dest
        = (docsOf cleanWorld.pages).map (fun d => (d.id, d.source))
    ∧ (reindex_data cleanWorld).dest.length = totalServed cleanWorld.pages :=
  success_total_counts_served_docs cleanWorld rfl (fun _ => rfl) (fun _ => rfl)
    rfl (by decide)

/-- Claim C4: the three-mode field-limit policy of the destination-settings
computation.  With the use-source sentinel (`--total-fields-limit -1`) a
declared (truthy, i.e. nonempty) source limit is copied verbatim and the
key is omitted when the source declares none; an explicit positive policy
N is applied regardless of the source; an unset policy, a zero or a
negative policy other than the sentinel omits the key entirely. -/
theorem field_limit_policy (src : SourceSettings) :
    (∀ s, src.total_fields_limit = some s → s ≠ "" →
      (create_settings (some (-1)) src).fieldLimit = some (JVal.str s))
    ∧ (src.total_fields_limit = none →
        (create_settings (some (-1)) src).fieldLimit = none)
    ∧ (∀ n : Int, 0 < n →
        (create_settings (some n) src).fieldLimit = some (JVal.num n))
    ∧ ((create_settings none src).fieldLimit = none)
    ∧ (∀ n : Int, n ≤ 0 → n ≠ -1 →
        (create_settings (some n) src).fieldLimit = none) := by
  refine ⟨?_, ?_, ?_, ?_, ?_⟩
  · intro s hs hne
    simp [create_settings, hs, hne]
  · intro hs
    simp [create_settings, hs]
  · intro n hn
    have hne : n ≠ -1 := by omega
    have hnz : n ≠ 0 := by omega
    simp [create_settings, hne, hnz, hn]
  · simp [create_settings]
  · intro n hn hne1
    have : ¬ (n ≠ 0 ∧ 0 < n) := by omega
    simp [create_settings, hne1, this]

/-- Witness for the C4 theorem: source limit "5000" is copied under the
use-source policy, policy 3000 overrides it, and a disabled policy with
no source limit omits the key. -/
theorem field_limit_policy_witness :
    (create_settings (some (-1)) ⟨none, none, some "5000"⟩).fieldLimit
        = some (JVal.str "5000")
    ∧ (create_settings (some 3000) ⟨none, none, some "5000"⟩).fieldLimit
        = some (JVal.num 3000)
    ∧ (create_settings none ⟨none, none, none⟩).fieldLimit = none :=
  ⟨(field_limit_policy ⟨none, none, some "5000"⟩).1 "5000" rfl (by decide),
   (field_limit_policy ⟨none, none, some "5000"⟩).2.2.1 3000 (by decide),
   (field_limit_policy ⟨none, none, none⟩).2.2.2.1⟩

/-- Claim C6, counterexample.  The index-create PUT answers 300 Multiple
Choices — a non-2xx status `requests` neither follows as a redirect nor
raises for in `raise_for_status()` (which raises exactly for 400-599) —
with the valid JSON body `[]`.  The code passes `raise_for_status()`,
parses the body at line 203 and returns it normally: no error at all is
raised, so "a non-2xx response to the index-create request raises an
error carrying the remote response body" is false of the code. -/
theorem create_non2xx_no_raise_cex :
    create_index_with_settings cex300World none ⟨none, none, none⟩
      = Except.ok (create_settings none ⟨none, none, none⟩, "[]") := by decide

/-- Claim C6 as amended: the two-phase delete-then-create contract.  The
result never depends on how the best-effort DELETE fared (a transport
exception there is swallowed, a non-2xx delete status is never checked);
a 4xx or 5xx response to the index-create PUT — the statuses
`raise_for_status()` raises for — yields an error carrying the remote
response body; a response with any other status passes
`raise_for_status()` and the call returns `response.json()` normally
whenever the body is valid JSON (a non-JSON body raises a JSON decode
error instead, which the model states by exhausting the `r.json`
cases). -/
theorem create_two_phase_contract (d d' : Except String Nat)
    (p : Except String PutResp) (limit : Option Int)
    (src : SourceSettings) :
    (create_index_with_settings ⟨d, p⟩ limit src
        = create_index_with_settings ⟨d', p⟩ limit src)
    ∧ (∀ r, p = .ok r → 400 ≤ r.status → r.status < 600 →
        create_index_with_settings ⟨d, p⟩ limit src
          = Except.error (CreateError.httpError r.status r.body))
    ∧ (∀ r j, p = .ok r → ¬(400 ≤ r.status ∧ r.status < 600) →
        r.json = some j →
        create_index_with_settings ⟨d, p⟩ limit src
          = Except.ok (create_settings limit src, j))
    ∧ (∀ r, p = .ok r → ¬(400 ≤ r.status ∧ r.status < 600) →
        r.json = none →
        create_index_with_settings ⟨d, p⟩ limit src
          = Except.error (CreateError.jsonDecodeError r.body)) := by
  refine ⟨?_, ?_, ?_, ?_⟩
  · cases d <;> cases d' <;> rfl
  · intro r hp h4 h6
    subst hp
    cases d <;> simp [create_index_with_settings, h4, h6]
  · intro r j hp hnot hj
    subst hp
    cases d <;> simp [create_index_with_settings, hnot, hj]
  · intro r hp hnot hj
    subst hp
    cases d <;> simp [create_index_with_settings, hnot, hj]

/-- Witness for the amended C6 theorem: a failing DELETE is swallowed, a
500 PUT response (non-JSON body "boom") raises with the body, a 200
response with the JSON ack body `[]` returns it, and a 204 response with
an empty (non-JSON) body raises the decode error. -/
theorem create_two_phase_contract_witness :
    (create_index_with_settings ⟨.error "conn refused", .ok ⟨500, "boom", none⟩⟩
        none ⟨none, none, none⟩
      = create_index_with_settings ⟨.ok 404, .ok ⟨500, "boom", none⟩⟩
        none ⟨none, none, none⟩)
    ∧ (create_index_with_settings ⟨.error "conn refused", .ok ⟨500, "boom", none⟩⟩
        none ⟨none, none, none⟩
      = Except.error (CreateError.httpError 500 "boom"))
    ∧ (create_index_with_settings ⟨.ok 200, .ok ⟨200, "[]", some "[]"⟩⟩
        none ⟨none, none, none⟩
      = Except.ok (create_settings none ⟨none, none, none⟩, "[]"))
    ∧ (create_index_with_settings ⟨.ok 200, .ok ⟨204, "", none⟩⟩
        none ⟨none, none, none⟩
      = Except.error (CreateError.jsonDecodeError "")) :=
  ⟨(create_two_phase_contract (.error "conn refused") (.ok 404)
      (.ok ⟨500, "boom", none⟩) none ⟨none, none, none⟩).1,
   (create_two_phase_contract (.error "conn refused") (.ok 404)
      (.ok ⟨500, "boom", none⟩) none ⟨none, none, none⟩).2.1 ⟨500, "boom", none⟩
      rfl (by decide) (by decide),
   (create_two_phase_contract (.ok 200) (.ok 200)
      (.ok ⟨200, "[]", some "[]"⟩) none ⟨none, none, none⟩).2.2.1
      ⟨200, "[]", some "[]"⟩ "[]" rfl (by decide) rfl,
   (create_two_phase_contract (.ok 200) (.ok 200)
      (.ok ⟨204, "", none⟩) none ⟨none, none, none⟩).2.2.2
      ⟨204, "", none⟩ rfl (by decide) rfl⟩

/-- Claim C8: a 200 bulk response whose body reports `errors: true` (a
nonempty set of rejected ids) is treated as processed.  When every bulk
POST answers 200 — rejected documents or not — and no request raises, the
page loop visits every served page (one bulk call each), counts every
document, releases the scroll once and returns normally: a partial
failure never stops the loop nor aborts the index's replication. -/
theorem bulk_partial_errors_continue (w : World) (ho : w.openErr = none)
    (hf : ∀ i, w.fetchErr i = none)
    (hb : ∀ i, ∃ fl, w.bulkResp i = BulkResp.resp 200 fl)
    (hc : w.closeErr = none) :
    (reindex_data w).outcome = Except.ok (totalServed w.pages)
    ∧ (reindex_data w).bulkCalls = servedCount w.pages
    ∧ (reindex_data w).closeCalls = 1 := by
  have hb' : ∀ i, (w.bulkResp i).isResp := by
    intro i
    obtain ⟨fl, hfl⟩ := hb i
    rw [hfl]
    simp [BulkResp.isResp]
  obtain ⟨h1, h2, h3⟩ := scrollLoop_ok w hf hb' hc w.pages 0 0 0 []
  refine ⟨?_, ?_, ?_⟩ <;> simp only [reindex_data, ho]
  · simpa using h1
  · simpa using h2
  · simpa using h3

/-- Witness for the C8 theorem at the world whose page-0 bulk response
rejects document `b` (`errors: true`) while page 1 is clean. -/
theorem bulk_partial_errors_continue_witness :
    (reindex_data partialErrWorld).outcome = Except.ok (totalServed partialErrWorld.pages)
    ∧ (reindex_data partialErrWorld).bulkCalls = servedCount partialErrWorld.pages
    ∧ (reindex_data partialErrWorld).closeCalls = 1 :=
  bulk_partial_errors_continue partialErrWorld rfl (fun _ => rfl)
    (fun _ => ⟨["b"], rfl⟩) rfl

/-- Whenever the tracker has both timestamps, `summary` renders, and its
line list carries an `Error:` line for every recorded failure. -/
theorem summaryLines_error_mem (st : CopyStatistics) (a b : Nat)
    (hs : st.start_time = some a) (he : st.end_time = some b)
    (x : String × String × String) (hx : x ∈ st.failed_copies) :
    ∃ L, st.summaryLines = some L ∧ ("    Error: " ++ x.2.2) ∈ L := by
  have hne : st.failed_copies.isEmpty = false := by
    cases hfc : st.failed_copies with
    | nil => rw [hfc] at hx; exact absurd hx (List.not_mem_nil x)
    | cons y ys => simp
  have hmem : ("    Error: " ++ x.2.2) ∈
      (st.failed_copies.map (fun x =>
        ["  - " ++ x.1 ++ " → " ++ x.2.1, "    Error: " ++ x.2.2])).flatten := by
    apply List.mem_flatten.mpr
    exact ⟨_, List.mem_map_of_mem _ hx, by simp⟩
  simp only [CopyStatistics.summaryLines, hs, he, hne, Bool.false_eq_true,
    if_false]
  refine ⟨_, rfl, ?_⟩
  exact List.mem_append.mpr (Or.inr hmem)

/-- Claim C5: failure isolation in the multi-index driver.  After
`stats.start()`, the loop over the (source, target) pairs, and
`stats.finish()`: every pair contributed exactly one outcome (so every
pair, including those after a failure, was attempted), each failing pair
is recorded as a Failure with its error text, each succeeding pair as a
Success, and the rendered summary enumerates every failure with an
`Error:` line carrying its error text. -/
theorem driver_failure_isolation (behavior : String → String → Except String Nat)
    (pairs : List (String × String)) (t0 t1 : Nat) :
    (mainRun behavior pairs t0 t1).successful_copies.length
        + (mainRun behavior pairs t0 t1).failed_copies.length = pairs.length
    ∧ (∀ p ∈ pairs, ∀ n, behavior p.1 p.2 = Except.ok n →
        (p.1, p.2, n) ∈ (mainRun behavior pairs t0 t1).successful_copies)
    ∧ (∀ p ∈ pairs, ∀ e, behavior p.1 p.2 = Except.error e →
        (p.1, p.2, e) ∈ (mainRun behavior pairs t0 t1).failed_copies)
    ∧ (∀ x ∈ (mainRun behavior pairs t0 t1).failed_copies,
        ∃ L, (mainRun behavior pairs t0 t1).summaryLines = some L
          ∧ ("    Error: " ++ x.2.2) ∈ L) := by
  obtain ⟨h1, h2, h3, h4⟩ := runAll_spec behavior pairs (emptyStats.start t0)
  simp only [emptyStats, CopyStatistics.start] at h1 h2 h3 h4
  have hsucc : (mainRun behavior pairs t0 t1).successful_copies
      = oksOf behavior pairs := by
    simp [mainRun, CopyStatistics.finish, emptyStats, CopyStatistics.start, h1]
  have hfail : (mainRun behavior pairs t0 t1).failed_copies
      = errsOf behavior pairs := by
    simp [mainRun, CopyStatistics.finish, emptyStats, CopyStatistics.start, h2]
  have hstart : (mainRun behavior pairs t0 t1).start_time = some t0 := by
    simp [mainRun, CopyStatistics.finish, emptyStats, CopyStatistics.start, h3]
  have hend : (mainRun behavior pairs t0 t1).end_time = some t1 := by
    simp [mainRun, CopyStatistics.finish]
  refine ⟨?_, ?_, ?_, ?_⟩
  · rw [hsucc, hfail]
    exact oksOf_errsOf_length behavior pairs
  · intro p hp n hbn
    rw [hsucc]
    exact List.mem_filterMap.mpr ⟨p, hp, by simp [hbn]⟩
  · intro p hp e hbe
    rw [hfail]
    exact List.mem_filterMap.mpr ⟨p, hp, by simp [hbe]⟩
  · intro x hx
    exact summaryLines_error_mem _ t0 t1 hstart hend x hx

/-- Witness for the C5 theorem: pair A fails with "boom", pair B still
runs and succeeds with 5 documents; both records are present and the
totals add up. -/
theorem driver_failure_isolation_witness :
    (mainRun (fun s _ => if s = "A" then Except.error "boom" else Except.ok 5)
        [("A", "A2"), ("B", "B2")] 0 9).successful_copies.length
      + (mainRun (fun s _ => if s = "A" then Except.error "boom" else Except.ok 5)
          [("A", "A2"), ("B", "B2")] 0 9).failed_copies.length = 2
    ∧ ("B", "B2", 5) ∈ (mainRun
        (fun s _ => if s = "A" then Except.error "boom" else Except.ok 5)
        [("A", "A2"), ("B", "B2")] 0 9).successful_copies
    ∧ ("A", "A2", "boom") ∈ (mainRun
        (fun s _ => if s = "A" then Except.error "boom" else Except.ok 5)
        [("A", "A2"), ("B", "B2")] 0 9).failed_copies := by
  have h := driver_failure_isolation
    (fun s _ => if s = "A" then Except.error "boom" else Except.ok 5)
    [("A", "A2"), ("B", "B2")] 0 9
  exact ⟨h.1, h.2.1 ("B", "B2") (by decide) 5 (by decide),
    h.2.2.1 ("A", "A2") (by decide) "boom" (by decide)⟩

/-- Claim C7: after any sequence of collector calls, `total_documents`
equals the sum of the `documentCount` entries of the recorded Success
outcomes; and recording a Failure leaves `total_documents` unchanged on
any state. -/
theorem total_documents_invariant :
    (∀ ops : List StatsOp,
      (applyOps ops).total_documents = sumCounts (applyOps ops).successful_copies)
    ∧ (∀ (st : CopyStatistics) (s t e : String),
        (st.add_failure s t e).total_documents = st.total_documents) := by
  constructor
  · intro ops
    exact foldl_total_documents ops emptyStats (by simp [emptyStats, sumCounts])
  · intro st s t e
    rfl

/-- Claim C9, counterexample.  On the state reached by no calls at all —
one of the states the claim quantifies over — `summary()` executes
`self.end_time - self.start_time` on two `None`s and raises `TypeError`
(modelled as `none`): "never raises, for every state, including none" is
false of the code. -/
theorem summary_unstarted_raises_cex :
    CopyStatistics.summary (applyOps []) = none := by decide

/-- Claim C9 as amended: rendering the summary succeeds on every state
reached by a call sequence that contains at least one `start()` and one
`finish()` call; recording outcomes never breaks renderability. -/
theorem summary_succeeds_after_start_finish (ops : List StatsOp)
    (hs : ∃ a, StatsOp.start a ∈ ops) (hf : ∃ b, StatsOp.finish b ∈ ops) :
    ((applyOps ops).summary).isSome = true := by
  have h1 := foldl_start_isSome ops emptyStats (Or.inl hs)
  have h2 := foldl_finish_isSome ops emptyStats (Or.inl hf)
  rw [Option.isSome_iff_exists] at h1 h2
  obtain ⟨a, ha⟩ := h1
  obtain ⟨b, hb⟩ := h2
  have ha' : (applyOps ops).start_time = some a := ha
  have hb' : (applyOps ops).end_time = some b := hb
  simp [CopyStatistics.summary, CopyStatistics.summaryLines, ha', hb']

/-- Witness for the amended C9 theorem on a concrete call sequence. -/
theorem summary_succeeds_after_start_finish_witness :
    ((applyOps [StatsOp.start 2, StatsOp.succ "a" "b" 3,
        StatsOp.fail "c" "d" "boom", StatsOp.finish 7]).summary).isSome = true :=
  summary_succeeds_after_start_finish
    [StatsOp.start 2, StatsOp.succ "a" "b" 3,
      StatsOp.fail "c" "d" "boom", StatsOp.finish 7]
    ⟨2, by decide⟩ ⟨7, by decide⟩

/-- Parsing preserves distinctness of the source names in the dict. -/
theorem parseEntries_nodup :
    ∀ (ps : List (List Char)) (m m' : List (String × String)),
      parseEntries m ps = some m' → (m.map Prod.fst).Nodup →
      (m'.map Prod.fst).Nodup := by
  intro ps
  induction ps with
  | nil =>
    intro m m' h hm
    simp only [parseEntries, Option.some.injEq] at h
    subst h
    exact hm
  | cons p ps ih =>
    intro m m' h hm
    simp only [parseEntries] at h
    cases hep : entryPair p with
    | none => rw [hep] at h; simp at h
    | some kv =>
      obtain ⟨k, v⟩ := kv
      rw [hep] at h
      exact ih _ _ h (nodup_keys_dictInsert m k v hm)

/-- Looking up the parsed dict gives the target of the last entry with
that source name, falling back to the accumulator. -/
theorem parseEntries_lookup :
    ∀ (ps : List (List Char)) (m m' : List (String × String)),
      parseEntries m ps = some m' → ∀ q,
      dictLookup m' q =
        match lastAssign (ps.filterMap entryPair) q with
        | some w => some w
        | none => dictLookup m q := by
  intro ps
  induction ps with
  | nil =>
    intro m m' h q
    simp only [parseEntries, Option.some.injEq] at h
    subst h
    simp [lastAssign]
  | cons p ps ih =>
    intro m m' h q
    simp only [parseEntries] at h
    cases hep : entryPair p with
    | none => rw [hep] at h; simp at h
    | some kv =>
      obtain ⟨k, v⟩ := kv
      rw [hep] at h
      have hres := ih _ _ h q
      rw [List.filterMap_cons, hep]
      cases hla : lastAssign (ps.filterMap entryPair) q with
      | some w =>
        rw [hla] at hres
        simpa [lastAssign, hla] using hres
      | none =>
        rw [hla] at hres
        rw [hres, dictLookup_dictInsert]
        simp only [lastAssign, hla]
        by_cases hk : k = q <;> simp [hk]

/-- Claim C10: entries of the indices string without a colon map to a
pair whose source and target both equal the trimmed entry; and when two
entries share a source name the dict keeps one pair per source (distinct
keys), whose target is the last entry's — Python-dict overwrite
semantics. -/
theorem parse_index_mapping_spec (s : String) (m : List (String × String))
    (h : parse_index_mapping s = some m) :
    (∀ p ∈ pySplit ',' s.data, p.contains ':' = false →
      entryPair p = some (String.mk (pyStrip p), String.mk (pyStrip p)))
    ∧ (m.map Prod.fst).Nodup
    ∧ (∀ k, dictLookup m k = lastAssign (pairsOf s) k) := by
  refine ⟨?_, ?_, ?_⟩
  · intro p _ hp
    rw [entryPair, hp]
    simp
  · rw [parse_index_mapping] at h
    cases hs : s.data.isEmpty with
    | true =>
      rw [hs] at h
      simp at h
      subst h
      simp
    | false =>
      rw [hs] at h
      simp only [Bool.false_eq_true, if_false] at h
      exact parseEntries_nodup _ [] m h (by simp)
  · intro k
    rw [parse_index_mapping] at h
    cases hs : s.data.isEmpty with
    | true =>
      rw [hs] at h
      simp at h
      subst h
      simp [pairsOf, hs, dictLookup, lastAssign]
    | false =>
      rw [hs] at h
      simp only [Bool.false_eq_true, if_false] at h
      have hres := parseEntries_lookup _ [] m h k
      rw [hres]
      simp only [pairsOf, hs, Bool.false_eq_true, if_false]
      cases hla : lastAssign ((pySplit ',' s.data).filterMap entryPair) k <;>
        simp [hla, dictLookup]

/-- Witness for the C10 theorem on the concrete string "a, b:c ,a:d":
entry "a" (no colon) maps a to a, then entry "a:d" overwrites that
binding in place, so the dict is [(a, d), (b, c)] — distinct keys, last
target kept. -/
theorem parse_index_mapping_spec_witness :
    (([("a", "d"), ("b", "c")] : List (String × String)).map Prod.fst).Nodup
    ∧ dictLookup [("a", "d"), ("b", "c")] "a" = lastAssign (pairsOf "a, b:c ,a:d") "a" := by
  have h := parse_index_mapping_spec "a, b:c ,a:d" [("a", "d"), ("b", "c")] (by decide)
  exact ⟨h.2.1, h.2.2 "a"⟩
